import Mathlib

/-!
Verification development for the report-composition engine of the
`eba.-mod` repository (files `eba_reports.py`, `eba_config.py`).

The Python code is shallowly embedded: strings are `String`/`List Char`,
Python floats are `ℚ`, JSON-ish scalar values are `PVal`, dictionaries
are association lists in arrival order, and fallible operations return
`Except Unit`.  External effects (chart rasterization backend, image
placement, `os.remove`, PDF serialization, logo file existence, font
download) are abstracted into an `Env` of oracles, and the system clock
into a `Clock` record, so that the control flow of
`gerar_pdf_corporativo` is a total function of payload, environment and
clock.  The produced PDF buffer is modelled as the sequence of drawing
primitives invoked with their (pre-sanitization) text arguments.
-/

set_option maxRecDepth 100000

unseal Rat.add Rat.sub Rat.mul Rat.inv

instance {ε α : Type} [DecidableEq ε] [DecidableEq α] : DecidableEq (Except ε α) :=
  fun a b =>
    match a, b with
    | Except.ok x, Except.ok y =>
      if h : x = y then isTrue (by rw [h]) else isFalse (by simp [h])
    | Except.ok _, Except.error _ => isFalse (by simp)
    | Except.error _, Except.ok _ => isFalse (by simp)
    | Except.error x, Except.error y =>
      if h : x = y then isTrue (by rw [h]) else isFalse (by simp [h])

/-- A Python scalar value as it arrives from the JSON payload:
`PVal.none` is `None` (or an absent key where the code defaults to
`None`), `PVal.num q` a numeric value, and `PVal.str s` a string.  In
this model a `PVal.str` stands for a string on which Python `float()`
fails (non-numeric); numeric strings are not modelled. -/
inductive PVal where
  | none : PVal
  | num : ℚ → PVal
  | str : String → PVal
deriving DecidableEq

/-! ### Text sanitizer: `PDFReport._safe` (eba_reports.py lines 232-259)

The sanitizer maps `None` to the empty string, replaces a fixed table of
fancy punctuation by plain-ASCII equivalents, breaks maximal runs of at
least 80 non-whitespace characters into space-separated chunks of at
most 80 characters (the `re.sub(r"\S{80,}", ...)` stage), and, when no
Unicode font is registered, drops every character that the `latin-1`
codec cannot encode (`encode("latin-1", "ignore")`). -/

/-- The characters matched by Python's `re` pattern `\s` on `str`
inputs: ASCII whitespace, the C1/Unicode whitespace characters, and the
Unicode space separators (U+2000–U+200A etc.). -/
def pyIsSpace (c : Char) : Bool :=
  ([9, 10, 11, 12, 13, 28, 29, 30, 31, 32, 133, 160, 5760] ++
    List.range' 8192 11 ++ [8232, 8233, 8239, 8287, 12288]).contains c.toNat

/-- The fixed fancy-punctuation table of `_safe` (em dash, en dash,
curly single and double quotes, ellipsis, no-break space), in the
insertion order of the Python dict `rep`. -/
def fancyTable : List (Char × List Char) :=
  [(Char.ofNat 0x2014, ['-']),
   (Char.ofNat 0x2013, ['-']),
   (Char.ofNat 0x2018, [Char.ofNat 39]),
   (Char.ofNat 0x2019, [Char.ofNat 39]),
   (Char.ofNat 0x201C, [Char.ofNat 34]),
   (Char.ofNat 0x201D, [Char.ofNat 34]),
   (Char.ofNat 0x2026, ['.', '.', '.']),
   (Char.ofNat 0x00A0, [' '])]

/-- Python `s.replace(k, v)` for a single-character pattern `k`. -/
def pyReplace (k : Char) (v : List Char) (s : List Char) : List Char :=
  s.flatMap (fun c => if c = k then v else [c])

/-- The replacement loop `for k, v in rep.items(): s = s.replace(k, v)`. -/
def replStage (s : List Char) : List Char :=
  fancyTable.foldl (fun acc kv => pyReplace kv.1 kv.2 acc) s

/-- The simultaneous character map induced by the replacement table
(well defined because no replacement value contains a table key). -/
def replChar (c : Char) : List Char :=
  match fancyTable.lookup c with
  | some v => v
  | Option.none => [c]

/-- Splits a list into chunks of at most 80 characters
(`token[i : i + max_len] for i in range(0, len(token), max_len)`).
The fuel argument makes the recursion structural; any fuel of at least
`l.length` gives the untruncated result. -/
def chunks80F : Nat → List Char → List (List Char)
  | 0, _ => []
  | _, [] => []
  | fuel + 1, c :: cs => ((c :: cs).take 80) :: chunks80F fuel ((c :: cs).drop 80)

/-- Python's `" ".join(chunks)`. -/
def joinSpace : List (List Char) → List Char
  | [] => []
  | [l] => l
  | l :: ls => l ++ ' ' :: joinSpace ls

/-- The `_break_long_tokens` stage: each maximal run of non-whitespace
characters of length at least 80 (the matches of `\S{80,}`) is replaced
by its 80-character chunks joined with single spaces; all other
characters are kept.  Fueled structural recursion; fuel `s.length`
suffices. -/
def breakTokensF : Nat → List Char → List Char
  | 0, _ => []
  | _, [] => []
  | fuel + 1, c :: cs =>
    if pyIsSpace c then c :: breakTokensF fuel cs
    else
      (if 80 ≤ ((c :: cs).takeWhile (fun d => !pyIsSpace d)).length then
        joinSpace (chunks80F ((c :: cs).takeWhile (fun d => !pyIsSpace d)).length
          ((c :: cs).takeWhile (fun d => !pyIsSpace d)))
      else (c :: cs).takeWhile (fun d => !pyIsSpace d)) ++
      breakTokensF fuel ((c :: cs).dropWhile (fun d => !pyIsSpace d))

def breakTokens (s : List Char) : List Char :=
  breakTokensF s.length s

/-- `PDFReport._safe`: `unicodeFont` is `self._unicode` (true when the
Montserrat font registered), the `Option` input covers `None`.  The
final branch models `s.encode("latin-1", "ignore").decode("latin-1")`,
which drops every character above U+00FF. -/
def pySafe (unicodeFont : Bool) (s : Option (List Char)) : List Char :=
  let s0 := s.getD []
  let s1 := replStage s0
  let s2 := breakTokens s1
  if unicodeFont then s2 else s2.filter (fun c => c.toNat < 256)

/-- Scans a character list keeping a counter of the current run of
non-whitespace characters (starting from `cur`); returns `true` iff the
counter never exceeds `mx`. -/
def checkRuns (mx : Nat) : Nat → List Char → Bool
  | _, [] => true
  | cur, c :: cs =>
    if pyIsSpace c then checkRuns mx 0 cs
    else decide (cur + 1 ≤ mx) && checkRuns mx (cur + 1) cs

example : pySafe true (some "a".toList) = "a".toList := by decide
example : pySafe false (some [Char.ofNat 0x2014, 'x']) = ['-', 'x'] := by decide
example : replStage [Char.ofNat 0x2026] = ['.', '.', '.'] := by decide
example : checkRuns 3 0 "ab cd".toList = true := by decide
example : checkRuns 3 0 "abcd".toList = false := by decide

/-! ### Python numeric formatting helpers -/

/-- Round half to even, as used by Python's `format(x, ".0f")`. -/
def roundHE (q : ℚ) : ℤ :=
  let f : ℤ := q.floor
  let fr : ℚ := q - f
  if fr < 1/2 then f
  else if 1/2 < fr then f + 1
  else if f % 2 = 0 then f else f + 1

/-- Python `f"{x:.0f}"`. -/
def pyFmt0 (q : ℚ) : String := toString (roundHE q)

/-- Python `f"{x:.1f}"` (one decimal, round half to even). -/
def pyFmt1 (q : ℚ) : String :=
  let n : ℤ := roundHE (q * 10)
  if n < 0 then
    "-" ++ toString ((-n) / 10) ++ "." ++ toString ((-n) % 10)
  else
    toString (n / 10) ++ "." ++ toString (n % 10)

/-- Python `int(x)` on a float: truncation toward zero. -/
def pyTrunc (q : ℚ) : ℤ := if 0 ≤ q then q.floor else -(-q).floor

/-- Python `str.capitalize()`: first character upper-cased, the rest
lower-cased (ASCII, which covers the indicator keys). -/
def pyCapitalize (s : String) : String :=
  match s.toList with
  | [] => ""
  | c :: rest => String.mk (c.toUpper :: rest.map Char.toLower)

example : pyFmt0 (82 : ℚ) = "82" := by decide
example : pyFmt0 (141/2 : ℚ) = "70" := by decide
example : pyFmt1 (73/10 : ℚ) = "7.3" := by decide
example : pyTrunc (709/10 : ℚ) = 70 := by decide
example : pyCapitalize "estado_animo" = "Estado_animo" := by decide

/-! ### Clock

`gerar_pdf_corporativo` reads `datetime.now()` at three places and
renders it with `%d/%m/%Y` (cover) and `%d/%m/%Y %H:%M` (candidate
info, fallback documents). -/

structure Clock where
  day : ℕ
  month : ℕ
  year : ℕ
  hour : ℕ
  minute : ℕ
deriving DecidableEq

def pad2 (n : ℕ) : String := if n < 10 then "0" ++ toString n else toString n

def pad4 (n : ℕ) : String :=
  if n < 10 then "000" ++ toString n
  else if n < 100 then "00" ++ toString n
  else if n < 1000 then "0" ++ toString n
  else toString n

/-- `f"{now:%d/%m/%Y}"`. -/
def fmtDate (c : Clock) : String :=
  pad2 c.day ++ "/" ++ pad2 c.month ++ "/" ++ pad4 c.year

/-- `f"{now:%d/%m/%Y %H:%M}"`. -/
def fmtDateTime (c : Clock) : String :=
  fmtDate c ++ " " ++ pad2 c.hour ++ ":" ++ pad2 c.minute

/-! ### Charts (`criar_radar_bfa`, `criar_grafico_competencias`,
`criar_gauge_fit`, eba_reports.py lines 31-166) -/

/-- The canonical label list of `criar_radar_bfa`. -/
def bigFiveLabels : List String :=
  ["Abertura", "Conscienciosidade", "Extroversão", "Amabilidade", "Neuroticismo"]

/-- Character-wise string map (kernel-friendly version of
`String.map`). -/
def strMap (f : Char → Char) (s : String) : String :=
  String.mk (s.toList.map f)

/-- The accent normalization applied to a label before the fallback
lookup (`.replace("ã","a").replace("ç","c").replace("õ","o")
.replace("é","e").replace("ó","o")`). -/
def normLabel (s : String) : String :=
  strMap (fun c =>
    if c = 'ã' then 'a'
    else if c = 'ç' then 'c'
    else if c = 'õ' then 'o'
    else if c = 'é' then 'e'
    else if c = 'ó' then 'o'
    else c) s

/-- `float(v or 0)` wrapped in `try/except` appending `0.0`: `None` and
empty strings are falsy (give `0`), non-numeric strings raise and the
handler appends `0.0`. -/
def pyFloatOr0 : PVal → ℚ
  | PVal.num q => q
  | _ => 0

/-- The value `criar_radar_bfa` plots for canonical label `k`:
`v = traits.get(k, None)`, falling back to the accent-normalized key
with default `0` when `v is None`, then `float(v or 0)` with exception
fallback `0.0`. -/
def radarVal (traits : List (String × PVal)) (k : String) : ℚ :=
  let v : PVal :=
    match traits.lookup k with
    | some w =>
      if w = PVal.none then
        match traits.lookup (normLabel k) with
        | some u => u
        | Option.none => PVal.num 0
      else w
    | Option.none =>
      match traits.lookup (normLabel k) with
      | some u => u
      | Option.none => PVal.num 0
  pyFloatOr0 v

/-- The radial values of the candidate trace, in the fixed canonical
label order. -/
def radarVals (traits : List (String × PVal)) : List ℚ :=
  bigFiveLabels.map (radarVal traits)

/-- The three bar colors of the competency chart. -/
inductive Cor where
  | bad : Cor
  | warn : Cor
  | primary : Cor
deriving DecidableEq

/-- The color-coding of one competency bar
(`COLOR_BAD if n < 45 else COLOR_WARN if n < 60 else COLOR_PRIMARY`). -/
def corClassificacao (n : ℚ) : Cor :=
  if n < 45 then Cor.bad else if n < 60 then Cor.warn else Cor.primary

/-- Color of a pandas cell: `NaN < 45` and `NaN < 60` are both false, so
a missing score falls through to the primary color. -/
def corNota : Option ℚ → Cor
  | some n => corClassificacao n
  | Option.none => Cor.primary

/-- One record of `competencias_ms`.  `nome`/`nota` are `Option`s:
`Option.none` models a record without that key (pandas then fills the
column with `NaN`). -/
structure Comp where
  nome : Option String
  nota : Option ℚ
deriving DecidableEq

/-- The `sort_values("nota")` key: missing scores sort last
(`na_position="last"`), modelled by `⊤` in `WithTop ℚ`. -/
def notaKey (r : Comp) : WithTop ℚ :=
  match r.nota with
  | some q => (q : WithTop ℚ)
  | Option.none => ⊤

def insertAsc (r : Comp) : List Comp → List Comp
  | [] => [r]
  | x :: xs => if notaKey r ≤ notaKey x then r :: x :: xs else x :: insertAsc r xs

/-- `df.sort_values("nota", ascending=True)` (an instantiation of the
unstable pandas quicksort; all properties proved below are independent
of the order among equal keys). -/
def sortAsc (l : List Comp) : List Comp := l.foldr insertAsc []

/-- The data of the bar chart built by `criar_grafico_competencias`:
the charted rows (name and score) and their bar colors. -/
structure CompChart where
  rows : List (Option String × ℚ)
  cores : List Cor
deriving DecidableEq

/-- `criar_grafico_competencias` (eba_reports.py lines 105-138).
Returns `.ok Option.none` when the list is empty or the `nota` column is
absent (no record carries the key); otherwise sorts ascending with
missing scores last and keeps the final 15 rows (`.tail(15)`).
`.error ()` models the exceptions the function can raise: `df["nome"]`
(`KeyError` when no record has a name) and
`df["nota"].round(0).astype(int)` (`NaN` cannot be cast to int when a
kept row has no score). -/
def compGrafico (comps : List Comp) : Except Unit (Option CompChart) :=
  if comps.isEmpty then Except.ok Option.none
  else if comps.all (fun r => r.nota.isNone) then Except.ok Option.none
  else
    let sorted := sortAsc comps
    let top := sorted.drop (sorted.length - 15)
    if comps.all (fun r => r.nome.isNone) then Except.error ()
    else if top.any (fun r => r.nota.isNone) then Except.error ()
    else Except.ok (some ⟨top.map (fun r => (r.nome, r.nota.getD 0)), top.map (fun r => corNota r.nota)⟩)

/-- The single value shown by `criar_gauge_fit`
(`float(fit_score or 0)`, already parsed by the caller). -/
def gaugeValue (fit : ℚ) : ℚ := fit

example : compGrafico [] = Except.ok Option.none := by decide
example : compGrafico [⟨some "a", Option.none⟩] = Except.ok Option.none := by decide
example :
    compGrafico [⟨some "b", some 50⟩] =
      Except.ok (some ⟨[(some "b", 50)], [Cor.warn]⟩) := by decide

/-! ### Role profile (`gerar_perfil_cargo_dinamico`, eba_config.py) -/

structure Perfil where
  traitsIdeais : List (String × ℚ × ℚ)
  competenciasCriticas : List String

def startsWithList : List Char → List Char → Bool
  | [], _ => true
  | _ :: _, [] => false
  | a :: as, b :: bs => a = b && startsWithList as bs

def hasSubList (needle : List Char) : List Char → Bool
  | [] => startsWithList needle []
  | c :: cs => startsWithList needle (c :: cs) || hasSubList needle cs

/-- Python's `needle in hay` on strings. -/
def strContains (hay needle : String) : Bool :=
  hasSubList needle.toList hay.toList

/-- `gerar_perfil_cargo_dinamico` (eba_config.py lines 45-122). -/
def perfilCargo (cargo : String) : Perfil :=
  let c := strMap Char.toLower cargo
  if strContains c "engenheiro" || strContains c "software" ||
      strContains c "dev" || strContains c "programador" then
    ⟨[("Abertura", 6, 9), ("Conscienciosidade", 7, 10), ("Extroversão", 2, 6),
      ("Amabilidade", 4, 8), ("Neuroticismo", 1, 4)],
     ["Resolução de Problemas", "Pensamento Analítico", "Trabalho em Equipe",
      "Autonomia", "Gestão de Tempo"]⟩
  else if strContains c "vendas" || strContains c "comercial" ||
      strContains c "account" then
    ⟨[("Abertura", 5, 8), ("Conscienciosidade", 6, 9), ("Extroversão", 7, 10),
      ("Amabilidade", 5, 9), ("Neuroticismo", 1, 4)],
     ["Comunicação Persuasiva", "Negociação", "Gestão de Relacionamento",
      "Resiliência"]⟩
  else if strContains c "lider" || strContains c "coord" ||
      strContains c "gerente" || strContains c "head" then
    ⟨[("Abertura", 5, 9), ("Conscienciosidade", 7, 10), ("Extroversão", 6, 9),
      ("Amabilidade", 5, 9), ("Neuroticismo", 1, 4)],
     ["Liderança Servidora", "Visão Estratégica", "Gestão de Pessoas",
      "Tomada de Decisão sob Pressão"]⟩
  else
    ⟨[("Abertura", 4, 8), ("Conscienciosidade", 5, 9), ("Extroversão", 3, 7),
      ("Amabilidade", 4, 8), ("Neuroticismo", 1, 5)],
     ["Organização", "Trabalho em Equipe", "Responsabilidade"]⟩

/-! ### Chart summary texts (`_resumo_radar`, `_resumo_competencias`,
`_resumo_fit`, eba_reports.py lines 372-464) -/

/-- The deviation of one trait entry from the midpoint of its ideal
range, used by `_resumo_radar`; `traits_ideais.get(k, (0, 10))`. -/
def desvioOf (ideais : List (String × ℚ × ℚ)) (k : String) (v : ℚ) : ℚ :=
  let faixa := (ideais.lookup k).getD (0, 10)
  |v - (faixa.1 + faixa.2) / 2|

/-- `_resumo_radar`.  The loop computes `float(v or 0)` inside
`try/except: continue`, so `None` and empty strings contribute `0` and
non-numeric strings are skipped. -/
def resumoRadar (traits : List (String × PVal)) (ideais : List (String × ℚ × ℚ)) : String :=
  if traits.isEmpty || ideais.isEmpty then
    "O gráfico de radar compara os traços do candidato com a faixa ideal esperada para o cargo, permitindo visualizar rapidamente onde há maior aderência e quais fatores se afastam do perfil-alvo."
  else
    let desvios := traits.filterMap (fun kv =>
      match kv.2 with
      | PVal.none => some (desvioOf ideais kv.1 0)
      | PVal.num q => some (desvioOf ideais kv.1 q)
      | PVal.str s => if s = "" then some (desvioOf ideais kv.1 0) else Option.none)
    if desvios.isEmpty then
      "O gráfico de radar apresenta o posicionamento geral do candidato frente ao perfil-alvo do cargo, reforçando o entendimento sobre como sua personalidade se distribui nos cinco grandes fatores."
    else
      let media := desvios.sum / (desvios.length : ℚ)
      let nivel :=
        if media ≤ 1 then "fortemente alinhado ao perfil ideal, com variações mínimas"
        else if media ≤ 2 then "razoavelmente alinhado, com alguns fatores que requerem monitoramento"
        else "com diferenças mais marcantes em relação ao perfil ideal, indicando pontos de atenção"
      "O gráfico de radar ilustra o grau de aderência do candidato ao perfil comportamental esperado. De forma geral, o conjunto de traços mostra-se " ++ nivel ++ ". Esse equilíbrio (ou desvio) deve ser considerado em conjunto com os requisitos críticos da função."

/-- Descending competency sort key (`sort_values("nota",
ascending=False)` still places `NaN` last). -/
def insertDesc (r : Comp) : List Comp → List Comp
  | [] => [r]
  | x :: xs =>
    if (match r.nota, x.nota with
        | some a, some b => decide (b ≤ a)
        | some _, Option.none => true
        | Option.none, some _ => false
        | Option.none, Option.none => true) then r :: x :: xs
    else x :: insertDesc r xs

def sortDesc (l : List Comp) : List Comp := l.foldr insertDesc []

/-- `f"{row['nome']} ({int(row['nota'])})"`: a missing name renders as
pandas `NaN`, which formats as `"nan"`. -/
def fmtCompRow (r : Comp) : String :=
  (r.nome.getD "nan") ++ " (" ++ toString (pyTrunc (r.nota.getD 0)) ++ ")"

/-- `_resumo_competencias` (eba_reports.py lines 410-439).  `.error ()`
models the `int(NaN)` exception raised when a row of the top-3 or
bottom-3 has no score (possible because `NaN` rows sort last and
`df.tail(3)` picks them up). -/
def resumoComp (comps : List Comp) : Except Unit String :=
  if comps.isEmpty then
    Except.ok "Não há competências suficientes para a construção do gráfico correspondente."
  else if comps.all (fun r => r.nota.isNone) || comps.all (fun r => r.nome.isNone) then
    Except.ok "As competências não estão estruturadas de forma completa para análise gráfica."
  else
    let sorted := sortDesc comps
    let top := sorted.take 3
    let low := sorted.drop (sorted.length - 3)
    if top.any (fun r => r.nota.isNone) || low.any (fun r => r.nota.isNone) then
      Except.error ()
    else
      let destaques := String.intercalate ", " (top.map fmtCompRow)
      let frag := String.intercalate ", " (low.map fmtCompRow)
      let notas := comps.filterMap (fun r => r.nota)
      let media := notas.sum / (notas.length : ℚ)
      let acima := (notas.filter (fun n => 60 ≤ n)).length
      let abaixo := (notas.filter (fun n => n < 45)).length
      Except.ok ("O gráfico de competências sintetiza a força do candidato frente às principais exigências da função. Destacam-se positivamente: " ++ destaques ++ ". Entre os pontos que merecem maior desenvolvimento, observam-se: " ++ frag ++ ". No conjunto, as notas apresentam média em torno de " ++ pyFmt0 media ++ ", com " ++ toString acima ++ " competências em nível satisfatório e " ++ toString abaixo ++ " abaixo do patamar esperado.")

/-- `_resumo_fit` (eba_reports.py lines 442-464); the caller passes the
already-parsed compatibility value, so `float(fit_score or 0)` is the
identity here. -/
def resumoFit (fit : ℚ) : String :=
  let nivel :=
    if fit < 40 then "um baixo alinhamento global ao cargo, sugerindo prudência na recomendação e eventual busca por posições alternativas mais aderentes ao perfil atual"
    else if fit < 70 then "um alinhamento moderado, indicando que o candidato pode performar bem, desde que haja suporte, acompanhamento e ações estruturadas de desenvolvimento"
    else "um alto alinhamento ao cargo, reforçando a indicação e sugerindo boa probabilidade de integração e desempenho positivos no contexto da função"
  "O indicador de fit aponta um nível de compatibilidade de aproximadamente " ++ pyFmt0 fit ++ "%. Na prática, isso representa " ++ nivel ++ ". Este indicador deve ser considerado em conjunto com a análise qualitativa e demais etapas do processo seletivo."

/-! ### Environment, events, and the document item model -/

/-- The three chart kinds rasterized during the visualization section. -/
inductive ChartKind where
  | radar : ChartKind
  | comp : ChartKind
  | gauge : ChartKind
deriving DecidableEq

/-- External-effect oracles for one run of `gerar_pdf_corporativo`:
`backend k` is the outcome of `pio.write_image` for chart `k` (the
temporary file path on success), `imageOk p` whether `pdf.image(p)`
succeeds, `removeOk p` whether `os.remove(p)` succeeds, `logoOk`
whether the logo file exists and can be placed, `fontOk` the result of
`_register_montserrat`, and the three output flags whether the
respective `pdf.output(dest="S")` calls succeed. -/
structure Env where
  backend : ChartKind → Except Unit String
  imageOk : String → Bool
  removeOk : String → Bool
  logoOk : Bool
  fontOk : Bool
  outputOk : Bool
  miniOutputOk : Bool
  fbOutputOk : Bool

/-- Temp-file lifecycle events of the visualization section. -/
inductive Ev where
  | create : String → Ev
  | place : String → Ev
  | remove : String → Ev
deriving DecidableEq

def Ev.isRemove : Ev → Bool
  | Ev.remove _ => true
  | _ => false

/-- One drawing primitive invocation, with its text argument as passed
(sanitization by `_safe` and `title.upper()` happen inside the
primitives and are modelled separately by `pySafe`). -/
inductive Item where
  | heading : String → Item
  | cell : String → Item
  | mcell : String → Item
  | par : String → Item
  | image : String → Item
  | rect : Item
  | ln : Item
deriving DecidableEq

/-- `fig_to_png_path` (eba_reports.py lines 169-179): any exception from
the rasterization backend is swallowed and `None` returned. -/
def figToPngPath (env : Env) (k : ChartKind) : Option String :=
  match env.backend k with
  | Except.ok p => some p
  | Except.error _ => Option.none

/-- The temp-file events produced by `fig_to_png_path` itself for chart
`k`: it creates the file on success and never removes anything. -/
def rasterEvents (env : Env) (k : ChartKind) : List Ev :=
  match env.backend k with
  | Except.ok p => [Ev.create p]
  | Except.error _ => []

/-- The `_embed` closure (eba_reports.py lines 571-583): on a rasterized
path it places the image (failures swallowed), then removes the temp
file (failures swallowed), and reports `True`; without a path it
reports `False`.  Result: (placed?, drawn items, temp-file events). -/
def embedChart (env : Env) (k : ChartKind) : Bool × List Item × List Ev :=
  match figToPngPath env k with
  | Option.none => (false, [], [])
  | some path =>
    (true,
     if env.imageOk path then [Item.image path] else [],
     rasterEvents env k ++
       (if env.imageOk path then [Ev.place path] else []) ++
       (if env.removeOk path then [Ev.remove path] else []))

/-! ### The analysis payload

Fields of `bfa_data` and `analysis` consumed by `gerar_pdf_corporativo`.
`Option` fields model dictionary keys that may be absent (the code uses
`.get(key, default)`); association lists keep arrival order. -/

structure Payload where
  candidatoNome : Option String
  traits : List (String × PVal)
  analiseTracos : List (String × String)
  competencias : List Comp
  indicadores : List (String × PVal)
  pontosFortes : List String
  pontosAtencao : List String
  decisao : Option String
  compat : PVal
  justificativa : String
  resumoExec : Option String
  saude : String
  recomendacoes : List String
  cargosAlt : List (String × String)
deriving DecidableEq

/-- `float((analysis or {}).get("compatibilidade_geral", 0) or 0)`: an
absent key or `None` or an empty string gives `0`; a non-numeric string
raises `ValueError`. -/
def pyFloatOrZero : PVal → Except Unit ℚ
  | PVal.none => Except.ok 0
  | PVal.num q => Except.ok q
  | PVal.str s => if s = "" then Except.ok 0 else Except.error ()

/-- The health-indicator loop (eba_reports.py lines 624-629): entries
with value `None` are skipped; the others pass through an unguarded
`float(v)`, so a non-numeric string aborts the whole composition. -/
def parseInds : List (String × PVal) → Except Unit (List (String × ℚ))
  | [] => Except.ok []
  | (k, v) :: rest =>
    match v with
    | PVal.none => parseInds rest
    | PVal.num q =>
      match parseInds rest with
      | Except.ok l => Except.ok ((k, q) :: l)
      | Except.error e => Except.error e
    | PVal.str _ => Except.error ()

/-- The value cell of one Big Five line: `f"{float(valor):.1f}/10"` with
exception fallback `f"{valor}/10"`. -/
def fmtTraitVal : PVal → String
  | PVal.num q => pyFmt1 q ++ "/10"
  | PVal.str s => s ++ "/10"
  | PVal.none => "/10"

/-! ### The composed document, section by section -/

def APP_NAME : String := "Elder Brain Analytics"
def APP_VERSION : String := "12.4 PRO"
def APP_TAGLINE : String := "Avaliações comportamentais com inteligência analítica"

/-- `PDFReport.cover` as invoked at step 1 (eba_reports.py lines
290-322, 487): optional logo image, banner rectangle, title, tagline,
and the author/version/date block. -/
def coverItems (logoPath : Option String) (env : Env) (clk : Clock) : List Item :=
  (match logoPath with
   | some lp => if lp ≠ "" ∧ env.logoOk then [Item.image lp] else []
   | Option.none => []) ++
  [Item.rect,
   Item.mcell APP_NAME,
   Item.ln,
   Item.mcell APP_TAGLINE,
   Item.ln,
   Item.mcell ("Desenvolvedor Responsável: André de Lima\nVersão: " ++ APP_VERSION ++ "\nData: " ++ fmtDate clk),
   Item.ln]

/-- Section "1. Informações do Candidato" (lines 490-497). -/
def sec1Items (p : Payload) (cargo : String) (clk : Clock) : List Item :=
  [Item.heading "1. Informações do Candidato",
   Item.par ("Nome: " ++ p.candidatoNome.getD "Não informado" ++ "\nCargo Avaliado: " ++ cargo ++ "\nData da Análise: " ++ fmtDateTime clk)]

/-- Section "2. Decisão e Compatibilidade" (lines 500-529). -/
def sec2Items (p : Payload) (compat : ℚ) : List Item :=
  [Item.heading "2. Decisão e Compatibilidade",
   Item.rect,
   Item.cell ("DECISÃO: " ++ p.decisao.getD "N/A" ++ "   |   COMPATIBILIDADE: " ++ pyFmt0 compat ++ "%"),
   Item.cell "Interpretação baseada em análise comportamental e requisitos do cargo.",
   Item.ln] ++
  (if p.justificativa ≠ "" then [Item.par p.justificativa] else [])

/-- Section "3. Resumo Executivo" (lines 532-535); the default for a
missing `resumo_executivo` key is the justification text. -/
def sec3Items (p : Payload) : List Item :=
  [Item.heading "3. Resumo Executivo"] ++
  (if p.resumoExec.getD p.justificativa ≠ "" then [Item.par (p.resumoExec.getD p.justificativa)] else [])

/-- The Big Five lines of section 4 (lines 540-550): payload arrival
order, entries with value `None` skipped. -/
def sec4TraitCells (ts : List (String × PVal)) : List Item :=
  (ts.filter (fun kv => kv.2 ≠ PVal.none)).flatMap
    (fun kv => [Item.cell (kv.1 ++ ":"), Item.cell (fmtTraitVal kv.2)])

/-- Section "4. Traços de Personalidade (Big Five)" (lines 538-555). -/
def sec4Items (p : Payload) : List Item :=
  [Item.heading "4. Traços de Personalidade (Big Five)"] ++
  sec4TraitCells p.traits ++
  (p.analiseTracos.filter (fun kv => kv.2 ≠ "")).map (fun kv => Item.par (kv.1 ++ ": " ++ kv.2))

/-- Section "5. Visualizações (Gráficos)" (lines 558-616): the radar,
competency and gauge chart slots, each with its textual fallback
sentence.  `rc` is the competency summary (only consulted when the
competency chart exists and was rasterized). -/
def sec5Items (env : Env) (p : Payload) (ideais : List (String × ℚ × ℚ))
    (compFig : Option CompChart) (rc : String) (compat : ℚ) : List Item :=
  [Item.heading "5. Visualizações (Gráficos)"] ++
  (match embedChart env ChartKind.radar with
   | (true, its, _) => its ++ [Item.ln, Item.par (resumoRadar p.traits ideais)]
   | (false, _, _) => [Item.par "⚠️ Não foi possível renderizar o gráfico de radar."]) ++
  [Item.ln] ++
  (match compFig with
   | some _ =>
     match embedChart env ChartKind.comp with
     | (true, its, _) => its ++ [Item.ln, Item.par rc]
     | (false, _, _) => [Item.par "Sem competências suficientes para exibição gráfica."]
   | Option.none => [Item.par "Sem competências suficientes para exibição gráfica."]) ++
  [Item.ln] ++
  (match embedChart env ChartKind.gauge with
   | (true, its, _) => its ++ [Item.ln, Item.par (resumoFit compat)]
   | (false, _, _) => [Item.par "⚠️ Não foi possível renderizar o indicador de fit."])

/-- Section "6. Saúde Emocional e Resiliência" (lines 619-629); `inds`
is the already-parsed indicator list. -/
def sec6Items (p : Payload) (inds : List (String × ℚ)) : List Item :=
  [Item.heading "6. Saúde Emocional e Resiliência"] ++
  (if p.saude ≠ "" then [Item.par p.saude] else []) ++
  inds.flatMap (fun kv =>
    [Item.cell (pyCapitalize (strMap (fun c => if c = '_' then ' ' else c) kv.1) ++ ": "),
     Item.cell (pyFmt0 kv.2 ++ "/100")])

/-- Section "7. Pontos Fortes" (lines 632-642): the payload's list (one
`"+ "` paragraph per non-empty entry), or the fixed fallback sentence
when the list is empty. -/
def sec7Items (pf : List String) : List Item :=
  Item.heading "7. Pontos Fortes" ::
  (if pf ≠ [] then
    (pf.filter (fun it => it ≠ "")).map (fun it => Item.par ("+ " ++ it))
  else
    [Item.par "Não foram identificados pontos fortes específicos suficientemente marcantes no relatório para destaque individual."])

/-- Section "8. Pontos de Atenção" (lines 645-655). -/
def sec8Items (pa : List String) : List Item :=
  Item.heading "8. Pontos de Atenção" ::
  (if pa ≠ [] then
    (pa.filter (fun it => it ≠ "")).map (fun it => Item.par ("! " ++ it))
  else
    [Item.par "O relatório não evidencia pontos de atenção críticos, mas recomenda-se acompanhamento regular no período de adaptação."])

/-- Section "9. Recomendações de Desenvolvimento" (lines 658-681):
numbered entries (empty strings skipped but still numbered by
`enumerate`), then the fixed complementary-suggestions block. -/
def sec9Items (recs : List String) : List Item :=
  [Item.heading "9. Recomendações de Desenvolvimento"] ++
  recs.enum.flatMap (fun ir =>
    if ir.2 ≠ "" then [Item.cell (toString (ir.1 + 1) ++ "."), Item.mcell ir.2] else []) ++
  [Item.ln,
   Item.cell "Sugestões complementares de desenvolvimento:",
   Item.mcell "- Participação em cursos de atualização técnica relacionados à área de atuação e às ferramentas-chave do cargo.\n- Trilhas de desenvolvimento em competências comportamentais (comunicação, trabalho em equipe, gestão de conflitos).\n- Programas de mentoring ou coaching interno, com foco em aceleração de desempenho e adaptação cultural.\n- Workshops pontuais de liderança, negociação e visão de negócio, conforme o nível de senioridade esperado."]

/-- Section "10. Cargos Alternativos Sugeridos" (lines 684-702). -/
def sec10Items (ca : List (String × String)) : List Item :=
  [Item.heading "10. Cargos Alternativos Sugeridos"] ++
  (if ca ≠ [] then
    ca.flatMap (fun ci =>
      if ci.1 = "" then []
      else [Item.mcell ("- " ++ ci.1)] ++ (if ci.2 ≠ "" then [Item.mcell ("   " ++ ci.2)] else []))
  else
    [Item.par "Não foram sugeridos cargos alternativos específicos neste relatório. Caso necessário, recomenda-se avaliar posições com escopo e senioridade próximos ao cargo atualmente analisado."])

/-- Section "11. Considerações Finais" (lines 705-714). -/
def sec11Items : List Item :=
  [Item.heading "11. Considerações Finais",
   Item.par "Este relatório tem caráter de apoio à decisão e deve ser interpretado em conjunto com entrevistas, histórico profissional, referências e demais etapas do processo seletivo. A utilização responsável das informações aqui apresentadas contribui para decisões mais consistentes, transparentes e alinhadas à cultura organizacional."]

/-- The inline mini document built when the deluxe `pdf.output` raises
(lines 722-735). -/
def miniItems (cargo : String) (clk : Clock) : List Item :=
  [Item.cell "RELATÓRIO DE ANÁLISE COMPORTAMENTAL",
   Item.mcell ("Relatório gerado para: " ++ cargo ++ "\nData: " ++ fmtDateTime clk)]

/-- All items drawn by the deluxe path, in order. -/
def deluxeItemsList (p : Payload) (cargo : String) (logoPath : Option String)
    (env : Env) (clk : Clock) (compat : ℚ) (compFig : Option CompChart)
    (inds : List (String × ℚ)) (rc : String) : List Item :=
  coverItems logoPath env clk ++
  sec1Items p cargo clk ++
  sec2Items p compat ++
  sec3Items p ++
  sec4Items p ++
  sec5Items env p (perfilCargo cargo).traitsIdeais compFig rc compat ++
  sec6Items p inds ++
  sec7Items p.pontosFortes ++
  sec8Items p.pontosAtencao ++
  sec9Items p.recomendacoes ++
  sec10Items p.cargosAlt ++
  sec11Items

/-- The temp-file event trace of the visualization section: radar,
then the competency chart (only when `criar_grafico_competencias`
returned a figure — `if comp_fig and _embed(...)` short-circuits),
then the gauge. -/
def visualEvents (env : Env) (compFig : Option CompChart) : List Ev :=
  (embedChart env ChartKind.radar).2.2 ++
  (match compFig with
   | some _ => (embedChart env ChartKind.comp).2.2
   | Option.none => []) ++
  (embedChart env ChartKind.gauge).2.2

/-- The deluxe composition path of `gerar_pdf_corporativo` (eba_reports
lines 479-745).  An `.error` is any exception reaching the outer
`except` (non-numeric compatibility at line 502, an exception inside
`criar_grafico_competencias` at line 564, a non-numeric health
indicator at line 629, an exception in `_resumo_competencias` at line
600, or both `pdf.output` calls failing).  On success it returns the
drawn items and the temp-file event trace. -/
def deluxeBody (p : Payload) (cargo : String) (logoPath : Option String)
    (env : Env) (clk : Clock) : Except Unit (List Item × List Ev) :=
  match pyFloatOrZero p.compat with
  | Except.error e => Except.error e
  | Except.ok compat =>
    match compGrafico p.competencias with
    | Except.error e => Except.error e
    | Except.ok compFig =>
      match parseInds p.indicadores with
      | Except.error e => Except.error e
      | Except.ok inds =>
        match (match compFig, env.backend ChartKind.comp with
               | some _, Except.ok _ => resumoComp p.competencias
               | _, _ => Except.ok "") with
        | Except.error e => Except.error e
        | Except.ok rc =>
          if env.outputOk then
            Except.ok (deluxeItemsList p cargo logoPath env clk compat compFig inds rc,
                       visualEvents env compFig)
          else if env.miniOutputOk then
            Except.ok (miniItems cargo clk, visualEvents env compFig)
          else Except.error ()

/-- The items of the simplified fallback document (lines 752-816). -/
def fallbackItems (p : Payload) (cargo : String) (clk : Clock) (compat : ℚ) : List Item :=
  [Item.cell "RELATÓRIO DE ANÁLISE COMPORTAMENTAL",
   Item.ln,
   Item.mcell ("Nome: " ++ p.candidatoNome.getD "Não informado" ++ "\nCargo Avaliado: " ++ cargo ++ "\nData da Análise: " ++ fmtDateTime clk ++ "\nDecisão: " ++ p.decisao.getD "N/A" ++ "\nCompatibilidade Geral: " ++ pyFmt0 compat ++ "%"),
   Item.ln] ++
  (if p.resumoExec.getD "" ≠ "" then
    [Item.cell "Resumo Executivo", Item.mcell (p.resumoExec.getD ""), Item.ln]
  else []) ++
  (if p.pontosFortes ≠ [] then
    [Item.cell "Pontos Fortes"] ++
    ((p.pontosFortes.take 5).filter (fun it => it ≠ "")).map (fun it => Item.mcell ("+ " ++ it)) ++
    [Item.ln]
  else []) ++
  (if p.pontosAtencao ≠ [] then
    [Item.cell "Pontos de Atenção"] ++
    ((p.pontosAtencao.take 5).filter (fun it => it ≠ "")).map (fun it => Item.mcell ("! " ++ it)) ++
    [Item.ln]
  else []) ++
  [Item.ln,
   Item.mcell "Este relatório apresenta uma síntese da análise comportamental realizada para o cargo em questão. Recomenda-se complementar a leitura com entrevistas e demais etapas do processo seletivo."]

/-- The simplified fallback path (lines 747-832): it re-parses the
compatibility value (line 763) and serializes; an exception in either
falls through to the final stub. -/
def fallbackBody (p : Payload) (cargo : String) (env : Env) (clk : Clock) :
    Except Unit (List Item) :=
  match pyFloatOrZero p.compat with
  | Except.error e => Except.error e
  | Except.ok compat =>
    if env.fbOutputOk then Except.ok (fallbackItems p cargo clk compat)
    else Except.error ()

/-- The returned byte buffer: a serialized drawing-item document, or the
literal last-resort bytes `b"%PDF-1.4\n%EOF\n"` (line 834). -/
inductive Output where
  | doc : List Item → Output
  | raw : String → Output
deriving DecidableEq

def Output.size : Output → Nat
  | Output.doc l => l.length
  | Output.raw s => s.length

def Output.items : Output → List Item
  | Output.doc l => l
  | Output.raw _ => []

/-- `gerar_pdf_corporativo` (eba_reports.py lines 468-834): the deluxe
path, its `except` fallback, and the final `except` stub.  Writing
`save_path` and the `st.error` log calls do not affect the returned
buffer and are not modelled. -/
def gerar (p : Payload) (cargo : String) (logoPath : Option String)
    (env : Env) (clk : Clock) : Output :=
  match deluxeBody p cargo logoPath env clk with
  | Except.ok (items, _) => Output.doc items
  | Except.error _ =>
    match fallbackBody p cargo env clk with
    | Except.ok items => Output.doc items
    | Except.error _ => Output.raw "%PDF-1.4\n%EOF\n"

/-! ### Properties of the sanitizer replacement stage -/

lemma pyReplace_append (k : Char) (v : List Char) (a b : List Char) :
    pyReplace k v (a ++ b) = pyReplace k v a ++ pyReplace k v b := by
  simp [pyReplace]

lemma replStage_append (a b : List Char) :
    replStage (a ++ b) = replStage a ++ replStage b := by
  simp [replStage, fancyTable, pyReplace_append]

lemma replStage_single (c : Char) : replStage [c] = replChar c := by
  by_cases h1 : c = Char.ofNat 0x2014
  · subst h1; decide
  by_cases h2 : c = Char.ofNat 0x2013
  · subst h2; decide
  by_cases h3 : c = Char.ofNat 0x2018
  · subst h3; decide
  by_cases h4 : c = Char.ofNat 0x2019
  · subst h4; decide
  by_cases h5 : c = Char.ofNat 0x201C
  · subst h5; decide
  by_cases h6 : c = Char.ofNat 0x201D
  · subst h6; decide
  by_cases h7 : c = Char.ofNat 0x2026
  · subst h7; decide
  by_cases h8 : c = Char.ofNat 0x00A0
  · subst h8; decide
  have b1 := beq_eq_false_iff_ne.mpr h1
  have b2 := beq_eq_false_iff_ne.mpr h2
  have b3 := beq_eq_false_iff_ne.mpr h3
  have b4 := beq_eq_false_iff_ne.mpr h4
  have b5 := beq_eq_false_iff_ne.mpr h5
  have b6 := beq_eq_false_iff_ne.mpr h6
  have b7 := beq_eq_false_iff_ne.mpr h7
  have b8 := beq_eq_false_iff_ne.mpr h8
  simp [replStage, fancyTable, pyReplace, replChar, List.lookup,
    h1, h2, h3, h4, h5, h6, h7, h8, b1, b2, b3, b4, b5, b6, b7, b8]

lemma replStage_eq_flatMap (s : List Char) : replStage s = s.flatMap replChar := by
  induction s with
  | nil => decide
  | cons c t ih =>
    have : c :: t = [c] ++ t := rfl
    rw [this, replStage_append, replStage_single, ih, List.flatMap_append]
    simp [List.flatMap]

/-! ### Run-length bound of the token-breaking stage -/

/-- The run counter value after scanning a list, starting from `n`. -/
def runEnd : Nat → List Char → Nat
  | n, [] => n
  | n, c :: cs => if pyIsSpace c then runEnd 0 cs else runEnd (n + 1) cs

lemma checkRuns_append (mx : Nat) (X : List Char) :
    ∀ n R, checkRuns mx n (X ++ R) = (checkRuns mx n X && checkRuns mx (runEnd n X) R) := by
  induction X with
  | nil => intro n R; simp [checkRuns, runEnd]
  | cons c cs ih =>
    intro n R
    by_cases hc : pyIsSpace c
    · simp [checkRuns, runEnd, hc, ih]
    · simp [checkRuns, runEnd, hc, ih, Bool.and_assoc]

lemma checkRuns_of_short (mx : Nat) :
    ∀ (l : List Char) (n : Nat), n + l.length ≤ mx → checkRuns mx n l = true := by
  intro l
  induction l with
  | nil => intro n _; simp [checkRuns]
  | cons c cs ih =>
    intro n h
    simp only [List.length_cons] at h
    by_cases hc : pyIsSpace c
    · simp only [checkRuns, if_pos hc]
      exact ih 0 (by omega)
    · simp only [checkRuns, if_neg hc, Bool.and_eq_true, decide_eq_true_eq]
      exact ⟨by omega, ih (n + 1) (by omega)⟩

lemma chunks80F_length_le (fuel : Nat) :
    ∀ l c, c ∈ chunks80F fuel l → c.length ≤ 80 := by
  induction fuel with
  | zero => intro l c h; simp [chunks80F] at h
  | succ f ih =>
    intro l c h
    cases l with
    | nil => simp [chunks80F] at h
    | cons a as =>
      simp only [chunks80F, List.mem_cons] at h
      rcases h with h | h
      · subst h; simp
      · exact ih _ _ h

lemma checkRuns_joinSpace (mx : Nat) :
    ∀ ls : List (List Char), (∀ l ∈ ls, l.length ≤ mx) →
      checkRuns mx 0 (joinSpace ls) = true := by
  intro ls
  induction ls with
  | nil => intro _; simp [joinSpace, checkRuns]
  | cons l rest ih =>
    intro h
    cases rest with
    | nil =>
      simpa [joinSpace] using checkRuns_of_short mx l 0 (by simpa using h l (by simp))
    | cons m ms =>
      have hsp : pyIsSpace ' ' = true := by decide
      show checkRuns mx 0 (l ++ ' ' :: joinSpace (m :: ms)) = true
      rw [checkRuns_append, Bool.and_eq_true]
      refine ⟨checkRuns_of_short mx l 0 (by simpa using h l (by simp)), ?_⟩
      simp only [checkRuns, if_pos hsp]
      exact ih (fun x hx => h x (List.mem_cons_of_mem _ hx))

lemma dropWhile_head_or_nil {α : Type} (p : α → Bool) (l : List α) :
    l.dropWhile p = [] ∨ ∃ d ds, l.dropWhile p = d :: ds ∧ p d = false := by
  induction l with
  | nil => left; rfl
  | cons a as ih =>
    by_cases ha : p a
    · simpa [List.dropWhile, ha] using ih
    · right; exact ⟨a, as, by simp [List.dropWhile, ha], by simpa using ha⟩

lemma breakTokensF_runs : ∀ (fuel : Nat) (s : List Char),
    checkRuns 80 0 (breakTokensF fuel s) = true := by
  intro fuel
  induction fuel using Nat.strong_induction_on with
  | _ fuel ih =>
    intro s
    match fuel, s with
    | 0, s => simp [breakTokensF, checkRuns]
    | f + 1, [] => simp [breakTokensF, checkRuns]
    | f + 1, c :: cs =>
      by_cases hc : pyIsSpace c
      · simp only [breakTokensF, if_pos hc, checkRuns]
        exact ih f (by omega) cs
      · simp only [breakTokensF, if_neg hc]
        rw [checkRuns_append, Bool.and_eq_true]
        refine ⟨?_, ?_⟩
        · by_cases hlen : 80 ≤ ((c :: cs).takeWhile (fun d => !pyIsSpace d)).length
          · simp only [if_pos hlen]
            exact checkRuns_joinSpace 80 _ (fun l hl => chunks80F_length_le _ _ _ hl)
          · simp only [if_neg hlen]
            exact checkRuns_of_short 80 _ 0 (by omega)
        · rcases dropWhile_head_or_nil (fun d => !pyIsSpace d) (c :: cs) with h | ⟨d, ds, h, hd⟩
          · rw [h]; cases f <;> simp [breakTokensF, checkRuns]
          · rw [h]
            have hd' : pyIsSpace d = true := by simpa using hd
            cases f with
            | zero => simp [breakTokensF, checkRuns]
            | succ f' =>
              simp only [breakTokensF, if_pos hd', checkRuns]
              exact ih f' (by omega) ds

/-- C4 — The sanitizer is total by construction, maps `None` to the
empty string, and its replacement stage realizes exactly the fixed
fancy-punctuation table: sequentially applying the eight `str.replace`
calls equals mapping each table character to its plain-ASCII value and
leaving every other character unchanged. -/
theorem safe_total_none_and_table :
    (∀ u, pySafe u Option.none = []) ∧
    (∀ s : List Char, replStage s = s.flatMap replChar) := by
  constructor
  · intro u; cases u <;> decide
  · exact replStage_eq_flatMap

/-- C5 (amended) — Every character surviving the non-Unicode-font
sanitizer is Latin-1 encodable, and on the Unicode-font output (the
sanitized text before the Latin-1 filter) no maximal run of
non-whitespace characters exceeds 80 characters. -/
theorem safe_latin1_and_wrap_before_filter :
    (∀ s, (pySafe false s).all (fun c => decide (c.toNat < 256)) = true) ∧
    (∀ s, checkRuns 80 0 (pySafe true s) = true) := by
  constructor
  · intro s
    rw [List.all_eq_true]
    intro c hc
    simp only [pySafe] at hc
    exact (List.mem_filter.mp hc).2
  · intro s
    have h := breakTokensF_runs (replStage (s.getD [])).length (replStage (s.getD []))
    simpa [pySafe, breakTokens] using h

set_option maxHeartbeats 2000000 in
/-- C5 (counterexample) — On the input consisting of 41 `A`s, one
`U+2003 EM SPACE`, and 40 `B`s, the non-Unicode-font sanitizer drops
the (non-Latin-1) Unicode whitespace separator, merging the two short
runs into one maximal run of 81 non-whitespace characters: the claimed
80-character wrap bound fails on the sanitized output. -/
theorem safe_wrap_bound_fails :
    checkRuns 80 0
      (pySafe false
        (some (List.replicate 41 'A' ++ [Char.ofNat 0x2003] ++ List.replicate 40 'B'))) = false := by
  decide

/-! ### C1 — total composition, non-empty buffer -/

lemma coverItems_length_pos (lp : Option String) (env : Env) (clk : Clock) :
    0 < (coverItems lp env clk).length := by
  unfold coverItems
  cases lp with
  | none => simp
  | some s =>
    by_cases h : s ≠ "" ∧ env.logoOk <;> simp [h]

lemma deluxeItemsList_length_pos (p : Payload) (cargo : String) (lp : Option String)
    (env : Env) (clk : Clock) (compat : ℚ) (compFig : Option CompChart)
    (inds : List (String × ℚ)) (rc : String) :
    0 < (deluxeItemsList p cargo lp env clk compat compFig inds rc).length := by
  unfold deluxeItemsList
  have h := coverItems_length_pos lp env clk
  simp only [List.length_append]
  omega

lemma deluxeBody_ok_shape (p : Payload) (cargo : String) (lp : Option String)
    (env : Env) (clk : Clock) (items : List Item) (evs : List Ev)
    (h : deluxeBody p cargo lp env clk = Except.ok (items, evs)) :
    (∃ compat compFig inds rc,
        items = deluxeItemsList p cargo lp env clk compat compFig inds rc) ∨
      items = miniItems cargo clk := by
  unfold deluxeBody at h
  cases hc : pyFloatOrZero p.compat with
  | error e => rw [hc] at h; exact absurd h (by simp)
  | ok compat =>
    rw [hc] at h; dsimp only at h
    cases hg : compGrafico p.competencias with
    | error e => rw [hg] at h; exact absurd h (by simp)
    | ok compFig =>
      rw [hg] at h; dsimp only at h
      cases hi : parseInds p.indicadores with
      | error e => rw [hi] at h; exact absurd h (by simp)
      | ok inds =>
        rw [hi] at h; dsimp only at h
        cases hr : (match compFig, env.backend ChartKind.comp with
                    | some _, Except.ok _ => resumoComp p.competencias
                    | _, _ => Except.ok "") with
        | error e => rw [hr] at h; exact absurd h (by simp)
        | ok rc =>
          rw [hr] at h; dsimp only at h
          by_cases ho : env.outputOk
          · rw [if_pos ho] at h
            left
            injection h with h2
            exact ⟨compat, compFig, inds, rc, (congrArg Prod.fst h2).symm⟩
          · rw [if_neg ho] at h
            by_cases hm : env.miniOutputOk
            · rw [if_pos hm] at h
              right
              injection h with h2
              exact (congrArg Prod.fst h2).symm
            · rw [if_neg hm] at h; exact absurd h (by simp)

lemma fallbackItems_length_pos (p : Payload) (cargo : String) (clk : Clock) (compat : ℚ) :
    0 < (fallbackItems p cargo clk compat).length := by
  unfold fallbackItems
  simp only [List.length_append, List.length_cons, List.length_nil]
  omega

lemma fallbackBody_ok_shape (p : Payload) (cargo : String) (env : Env) (clk : Clock)
    (items : List Item) (h : fallbackBody p cargo env clk = Except.ok items) :
    ∃ compat, pyFloatOrZero p.compat = Except.ok compat ∧
      items = fallbackItems p cargo clk compat := by
  unfold fallbackBody at h
  split at h
  · exact absurd h (by simp)
  · rename_i compat heq
    split at h
    · exact ⟨compat, heq, by injection h with h'; exact h'.symm⟩
    · exact absurd h (by simp)

/-- C1 — `gerar_pdf_corporativo` is total (every internal exception is
caught by the nested `try/except` structure) and, whatever the payload,
environment and clock, returns a non-empty buffer; moreover, whenever
the deluxe path fails and the simplified fallback document is produced,
that document contains the single block summarizing the candidate name,
decision and compatibility. -/
theorem gerar_total_nonempty :
    (∀ p cargo lp env clk, 0 < (gerar p cargo lp env clk).size) ∧
    (∀ p cargo env clk items, fallbackBody p cargo env clk = Except.ok items →
      ∃ compat, pyFloatOrZero p.compat = Except.ok compat ∧
        Item.mcell ("Nome: " ++ p.candidatoNome.getD "Não informado" ++
          "\nCargo Avaliado: " ++ cargo ++ "\nData da Análise: " ++ fmtDateTime clk ++
          "\nDecisão: " ++ p.decisao.getD "N/A" ++ "\nCompatibilidade Geral: " ++
          pyFmt0 compat ++ "%") ∈ items) := by
  constructor
  · intro p cargo lp env clk
    unfold gerar
    cases hd : deluxeBody p cargo lp env clk with
    | ok pr =>
      obtain ⟨items, evs⟩ := pr
      rcases deluxeBody_ok_shape p cargo lp env clk items evs hd with ⟨c, f, i, r, rfl⟩ | rfl
      · exact deluxeItemsList_length_pos p cargo lp env clk c f i r
      · simp [miniItems, Output.size]
    | error e =>
      cases hf : fallbackBody p cargo env clk with
      | ok items =>
        obtain ⟨compat, _, rfl⟩ := fallbackBody_ok_shape p cargo env clk items hf
        exact fallbackItems_length_pos p cargo clk compat
      | error e' => dsimp only; decide
  · intro p cargo env clk items hf
    obtain ⟨compat, hc, rfl⟩ := fallbackBody_ok_shape p cargo env clk items hf
    exact ⟨compat, hc, by simp [fallbackItems]⟩

/-- Witness for C1 at a concrete payload whose deluxe serialization
fails, exercising the fallback branch hypothesis. -/
theorem gerar_total_nonempty_witness :
    0 < (gerar ⟨some "Ana", [], [], [], [], ["Foco"], [], some "RECOMENDADO",
          PVal.num 82, "ok", some "res", "", [], []⟩ "Analista" Option.none
          ⟨fun _ => Except.error (), fun _ => true, fun _ => true, false, false,
           false, false, true⟩ ⟨1, 2, 2025, 9, 30⟩).size ∧
    (∃ compat, pyFloatOrZero (PVal.num 82) = Except.ok compat ∧
      Item.mcell ("Nome: Ana\nCargo Avaliado: Analista\nData da Análise: 01/02/2025 09:30\nDecisão: RECOMENDADO\nCompatibilidade Geral: " ++ pyFmt0 compat ++ "%") ∈
        fallbackItems ⟨some "Ana", [], [], [], [], ["Foco"], [], some "RECOMENDADO",
          PVal.num 82, "ok", some "res", "", [], []⟩ "Analista" ⟨1, 2, 2025, 9, 30⟩ 82) := by
  constructor
  · exact gerar_total_nonempty.1 _ "Analista" Option.none _ _
  · have h := gerar_total_nonempty.2
      ⟨some "Ana", [], [], [], [], ["Foco"], [], some "RECOMENDADO",
        PVal.num 82, "ok", some "res", "", [], []⟩ "Analista"
      ⟨fun _ => Except.error (), fun _ => true, fun _ => true, false, false,
       false, false, true⟩ ⟨1, 2, 2025, 9, 30⟩
      (fallbackItems ⟨some "Ana", [], [], [], [], ["Foco"], [], some "RECOMENDADO",
        PVal.num 82, "ok", some "res", "", [], []⟩ "Analista" ⟨1, 2, 2025, 9, 30⟩ 82)
      (by decide)
    simpa using h

/-! ### C9 — temp-file lifecycle of the chart images -/

/-- Scans an event trace with the list of currently live (created but
not yet removed) temp files: at every `create` the live set must be
empty, each `remove` must remove exactly the live file, and at the end
nothing may be live. -/
def scanLive : List Ev → List String → Bool
  | [], live => live.isEmpty
  | Ev.create p :: r, live => live.isEmpty && scanLive r [p]
  | Ev.place _ :: r, live => scanLive r live
  | Ev.remove p :: r, live => decide (live = [p]) && scanLive r []

lemma scanLive_append_block (env : Env) (k : ChartKind)
    (hrm : ∀ s, env.removeOk s = true) (R : List Ev)
    (hR : scanLive R [] = true) :
    scanLive ((embedChart env k).2.2 ++ R) [] = true := by
  unfold embedChart figToPngPath
  cases hb : env.backend k with
  | error e => simpa [scanLive] using hR
  | ok path =>
    dsimp only
    rw [rasterEvents, hb]
    by_cases hi : env.imageOk path <;>
      simp [hi, hrm path, scanLive, hR]

/-- C9 — Ownership of the rasterized chart images: the rasterizer
(`fig_to_png_path`) creates temp files and never removes one; in the
visualization section each successfully rasterized chart's file is
created, (when `pdf.image` succeeds) placed, and then removed, in that
order, before the next chart's file is created — assuming `os.remove`
itself succeeds, no file is still live when a later chart starts, and
none is live at the end of the section. -/
theorem chart_tempfile_lifecycle (env : Env) (compFig : Option CompChart)
    (hrm : ∀ s, env.removeOk s = true) :
    (∀ k, (rasterEvents env k).all (fun e => !e.isRemove) = true) ∧
    scanLive (visualEvents env compFig) [] = true ∧
    (∀ k p, env.backend k = Except.ok p → env.imageOk p = true →
      (embedChart env k).2.2 = [Ev.create p, Ev.place p, Ev.remove p]) := by
  refine ⟨?_, ?_, ?_⟩
  · intro k
    unfold rasterEvents
    cases env.backend k <;> simp [Ev.isRemove]
  · unfold visualEvents
    rw [List.append_assoc]
    apply scanLive_append_block env ChartKind.radar hrm
    cases compFig with
    | none =>
      simp only [List.nil_append]
      rw [show (embedChart env ChartKind.gauge).2.2 = (embedChart env ChartKind.gauge).2.2 ++ [] by simp]
      apply scanLive_append_block env ChartKind.gauge hrm
      simp [scanLive]
    | some c =>
      apply scanLive_append_block env ChartKind.comp hrm
      rw [show (embedChart env ChartKind.gauge).2.2 = (embedChart env ChartKind.gauge).2.2 ++ [] by simp]
      apply scanLive_append_block env ChartKind.gauge hrm
      simp [scanLive]
  · intro k p hb hi
    unfold embedChart figToPngPath
    rw [hb]
    dsimp only
    rw [rasterEvents, hb]
    simp [hi, hrm p]

/-- Witness for C9 at a concrete environment in which every chart
rasterizes and every removal succeeds. -/
theorem chart_tempfile_lifecycle_witness :
    scanLive (visualEvents
      ⟨fun k => Except.ok (match k with
        | ChartKind.radar => "r.png" | ChartKind.comp => "c.png" | ChartKind.gauge => "g.png"),
       fun _ => true, fun _ => true, true, true, true, true, true⟩
      (some ⟨[(some "X", 50)], [Cor.warn]⟩)) [] = true ∧
    (rasterEvents
      ⟨fun k => Except.ok (match k with
        | ChartKind.radar => "r.png" | ChartKind.comp => "c.png" | ChartKind.gauge => "g.png"),
       fun _ => true, fun _ => true, true, true, true, true, true⟩ ChartKind.radar).all
      (fun e => !e.isRemove) = true := by
  have h := chart_tempfile_lifecycle
    ⟨fun k => Except.ok (match k with
      | ChartKind.radar => "r.png" | ChartKind.comp => "c.png" | ChartKind.gauge => "g.png"),
     fun _ => true, fun _ => true, true, true, true, true, true⟩
    (some ⟨[(some "X", 50)], [Cor.warn]⟩) (fun _ => rfl)
  exact ⟨h.2.1, h.1 ChartKind.radar⟩

/-! ### C7 — chart failure degrades to textual fallbacks -/

lemma embedChart_fail (env : Env) (k : ChartKind) (h : env.backend k = Except.error ()) :
    embedChart env k = (false, [], []) := by
  unfold embedChart figToPngPath
  rw [h]

/-- The heading titles of the eleven numbered sections. -/
def elevenHeadings : List String :=
  ["1. Informações do Candidato", "2. Decisão e Compatibilidade", "3. Resumo Executivo",
   "4. Traços de Personalidade (Big Five)", "5. Visualizações (Gráficos)",
   "6. Saúde Emocional e Resiliência", "7. Pontos Fortes", "8. Pontos de Atenção",
   "9. Recomendações de Desenvolvimento", "10. Cargos Alternativos Sugeridos",
   "11. Considerações Finais"]

/-- C7 — When the rasterization backend throws for every chart kind,
`fig_to_png_path` returns `None` instead of propagating, and the
composed document still contains all eleven section headings, with each
of the three chart slots replaced by its fixed textual fallback
sentence, in a non-empty buffer.  (The side hypotheses say only that no
unrelated exception aborts the deluxe path: the compatibility value and
health indicators parse, `criar_grafico_competencias` does not raise,
and serialization succeeds.) -/
theorem charts_fail_all_sections_render (p : Payload) (cargo : String) (lp : Option String)
    (env : Env) (clk : Clock) (compat : ℚ) (compFig : Option CompChart)
    (inds : List (String × ℚ))
    (hb : ∀ k, env.backend k = Except.error ())
    (hc : pyFloatOrZero p.compat = Except.ok compat)
    (hg : compGrafico p.competencias = Except.ok compFig)
    (hi : parseInds p.indicadores = Except.ok inds)
    (ho : env.outputOk = true) :
    (∀ k, figToPngPath env k = Option.none) ∧
    ∃ its, gerar p cargo lp env clk = Output.doc its ∧
      (∀ t ∈ elevenHeadings, Item.heading t ∈ its) ∧
      Item.par "⚠️ Não foi possível renderizar o gráfico de radar." ∈ its ∧
      Item.par "Sem competências suficientes para exibição gráfica." ∈ its ∧
      Item.par "⚠️ Não foi possível renderizar o indicador de fit." ∈ its ∧
      its ≠ [] := by
  constructor
  · intro k; unfold figToPngPath; rw [hb k]
  · have hrc : (match compFig, env.backend ChartKind.comp with
        | some _, Except.ok _ => resumoComp p.competencias
        | _, _ => Except.ok "") = Except.ok "" := by
      cases compFig <;> rw [hb ChartKind.comp]
    have hd : deluxeBody p cargo lp env clk =
        Except.ok (deluxeItemsList p cargo lp env clk compat compFig inds "",
          visualEvents env compFig) := by
      unfold deluxeBody
      rw [hc]; dsimp only
      rw [hg]; dsimp only
      rw [hi]; dsimp only
      rw [hrc]; dsimp only
      rw [if_pos ho]
    refine ⟨deluxeItemsList p cargo lp env clk compat compFig inds "", ?_, ?_, ?_, ?_, ?_, ?_⟩
    · unfold gerar; rw [hd]
    · intro t ht
      fin_cases ht <;>
        simp [deluxeItemsList, coverItems, sec1Items, sec2Items, sec3Items, sec4Items,
          sec5Items, sec6Items, sec7Items, sec8Items, sec9Items, sec10Items, sec11Items,
          List.mem_append]
    · simp [deluxeItemsList, sec5Items, embedChart_fail env ChartKind.radar (hb ChartKind.radar),
        List.mem_append]
    · cases compFig <;>
        simp [deluxeItemsList, sec5Items, embedChart_fail env ChartKind.comp (hb ChartKind.comp),
          List.mem_append]
    · simp [deluxeItemsList, sec5Items, embedChart_fail env ChartKind.gauge (hb ChartKind.gauge),
        List.mem_append]
    · have hp := deluxeItemsList_length_pos p cargo lp env clk compat compFig inds ""
      intro hnil
      rw [hnil] at hp
      simp at hp

/-- Witness for C7: a concrete payload and an environment whose chart
backend fails for all three kinds. -/
theorem charts_fail_all_sections_render_witness :
    (∀ k, figToPngPath ⟨fun _ => Except.error (), fun _ => true, fun _ => true,
        true, true, true, true, true⟩ k = Option.none) ∧
    ∃ its, gerar ⟨some "Bea", [("Abertura", PVal.num 7)], [], [⟨some "Foco", some 70⟩],
        [], ["Energia"], ["Pressa"], some "RECOMENDADO", PVal.num 82, "j", some "r", "s",
        ["d1"], []⟩ "Vendas" Option.none
        ⟨fun _ => Except.error (), fun _ => true, fun _ => true, true, true, true, true, true⟩
        ⟨3, 4, 2025, 11, 15⟩ = Output.doc its ∧
      (∀ t ∈ elevenHeadings, Item.heading t ∈ its) ∧
      Item.par "⚠️ Não foi possível renderizar o gráfico de radar." ∈ its ∧
      Item.par "Sem competências suficientes para exibição gráfica." ∈ its ∧
      Item.par "⚠️ Não foi possível renderizar o indicador de fit." ∈ its ∧
      its ≠ [] := by
  exact charts_fail_all_sections_render _ "Vendas" Option.none _ ⟨3, 4, 2025, 11, 15⟩
    82 (some ⟨[(some "Foco", 70)], [Cor.primary]⟩) []
    (fun _ => rfl) rfl (by decide) rfl rfl

/-! ### C2 — competency thresholds and the strengths/attention lists -/

/-- C2 (counterexample) — A payload whose only competency scores 70
(≥ 55) but whose `pontos_fortes` list is empty: the composed report
renders the fixed strengths fallback sentence and no `"+ CompX"`
strengths line at all, and the chart colors a score of 55 amber
(`COLOR_WARN`), not the strength color — the bullet buckets are not
derived from competency scores, and the chart thresholds are 45/60,
not 45/55. -/
theorem strengths_bucket_not_score_driven :
    corClassificacao 55 = Cor.warn ∧ Cor.warn ≠ Cor.primary ∧
    (55 : ℚ) ≥ 55 ∧
    Item.par "+ CompX" ∉
      (gerar ⟨some "Caio", [], [], [⟨some "CompX", some 70⟩], [], [], [],
        some "RECOMENDADO", PVal.num 82, "", Option.none, "", [], []⟩ "Analista"
        Option.none
        ⟨fun _ => Except.error (), fun _ => true, fun _ => true, true, true, true, true, true⟩
        ⟨5, 6, 2025, 8, 0⟩).items ∧
    Item.par "Não foram identificados pontos fortes específicos suficientemente marcantes no relatório para destaque individual." ∈
      (gerar ⟨some "Caio", [], [], [⟨some "CompX", some 70⟩], [], [], [],
        some "RECOMENDADO", PVal.num 82, "", Option.none, "", [], []⟩ "Analista"
        Option.none
        ⟨fun _ => Except.error (), fun _ => true, fun _ => true, true, true, true, true, true⟩
        ⟨5, 6, 2025, 8, 0⟩).items := by
  decide

/-- C2 (amended) — The competency thresholds of the composer classify
only the chart's bar colors: score ≥ 60 gets the primary (strength)
color, score < 45 the critical color, and the band 45 ≤ score < 60 the
neutral amber — no score gets two colors since the classification is a
function.  The report's "Pontos Fortes" bullet section renders exactly
the payload's `pontos_fortes` entries (each non-empty entry as a
`"+ "`-prefixed line) and falls back to a fixed sentence when the list
is empty; it is independent of competency scores. -/
theorem comp_colors_and_strengths_from_payload :
    (∀ n : ℚ, 60 ≤ n → corClassificacao n = Cor.primary) ∧
    (∀ n : ℚ, n < 45 → corClassificacao n = Cor.bad) ∧
    (∀ n : ℚ, 45 ≤ n → n < 60 → corClassificacao n = Cor.warn) ∧
    (∀ pf x, x ∈ pf → x ≠ "" → Item.par ("+ " ++ x) ∈ sec7Items pf) ∧
    (sec7Items [] = [Item.heading "7. Pontos Fortes",
      Item.par "Não foram identificados pontos fortes específicos suficientemente marcantes no relatório para destaque individual."]) := by
  refine ⟨?_, ?_, ?_, ?_, ?_⟩
  · intro n h
    unfold corClassificacao
    rw [if_neg (by linarith), if_neg (by linarith)]
  · intro n h
    unfold corClassificacao
    rw [if_pos h]
  · intro n h1 h2
    unfold corClassificacao
    rw [if_neg (by linarith), if_pos h2]
  · intro pf x hx hne
    unfold sec7Items
    apply List.mem_cons_of_mem
    rw [if_pos (List.ne_nil_of_mem hx)]
    exact List.mem_map.mpr ⟨x, List.mem_filter.mpr ⟨hx, by simp [hne]⟩, rfl⟩
  · rfl

/-- Witness for C2 (amended) at concrete scores and a concrete
strengths list. -/
theorem comp_colors_and_strengths_witness :
    corClassificacao 60 = Cor.primary ∧ corClassificacao 30 = Cor.bad ∧
    corClassificacao 50 = Cor.warn ∧ Item.par "+ Foco" ∈ sec7Items ["Foco"] := by
  exact ⟨comp_colors_and_strengths_from_payload.1 60 (by norm_num),
         comp_colors_and_strengths_from_payload.2.1 30 (by norm_num),
         comp_colors_and_strengths_from_payload.2.2.1 50 (by norm_num) (by norm_num),
         comp_colors_and_strengths_from_payload.2.2.2.1 ["Foco"] "Foco" (by simp) (by simp)⟩

/-! ### C3 — trait rendering order and missing traits -/

/-- C3 (counterexample) — A payload whose trait mapping holds only
`Neuroticismo` and `Abertura` (in that arrival order): the composed
report contains no `Conscienciosidade` label line at all — the five
canonical labels are not all rendered and nothing is marked "not
available" — and the text section preserves arrival order rather than
the canonical one (`Neuroticismo` line precedes `Abertura`). -/
theorem traits_not_all_rendered :
    Item.cell "Conscienciosidade:" ∉
      (gerar ⟨some "Dara", [("Neuroticismo", PVal.num 5), ("Abertura", PVal.num 3)], [],
        [], [], [], [], some "RECOMENDADO", PVal.num 82, "", Option.none, "", [], []⟩
        "Analista" Option.none
        ⟨fun _ => Except.error (), fun _ => true, fun _ => true, true, true, true, true, true⟩
        ⟨5, 6, 2025, 8, 0⟩).items ∧
    sec4TraitCells [("Neuroticismo", PVal.num 5), ("Abertura", PVal.num 3)] =
      [Item.cell "Neuroticismo:", Item.cell "5.0/10",
       Item.cell "Abertura:", Item.cell "3.0/10"] := by
  decide

/-- C3 (amended) — The trait text section renders one label line per
payload entry with non-null value, in payload arrival order, skipping
missing traits (no "not available" marker exists); the radar chart, by
contrast, always plots the five canonical labels in their fixed order,
and a trait absent under both its accented and its accent-normalized
spelling is plotted as 0. -/
theorem traits_text_arrival_radar_canonical :
    (∀ ts k, ts.lookup k = Option.none → ts.lookup (normLabel k) = Option.none →
      radarVal ts k = 0) ∧
    (∀ ts, radarVals ts =
      [radarVal ts "Abertura", radarVal ts "Conscienciosidade", radarVal ts "Extroversão",
       radarVal ts "Amabilidade", radarVal ts "Neuroticismo"]) ∧
    (∀ ts k v, (k, v) ∈ ts → v ≠ PVal.none →
      Item.cell (k ++ ":") ∈ sec4TraitCells ts) := by
  refine ⟨?_, ?_, ?_⟩
  · intro ts k h1 h2
    unfold radarVal
    rw [h1, h2]
    rfl
  · intro ts; rfl
  · intro ts k v hv hne
    unfold sec4TraitCells
    refine List.mem_flatMap.mpr ⟨(k, v), List.mem_filter.mpr ⟨hv, by simp [hne]⟩, by simp⟩

/-- Witness for C3 (amended): concrete lookups and a concrete trait
list. -/
theorem traits_text_arrival_radar_canonical_witness :
    radarVal [("Abertura", PVal.num 3)] "Neuroticismo" = 0 ∧
    radarVals [] = [0, 0, 0, 0, 0] ∧
    Item.cell "Abertura:" ∈ sec4TraitCells [("Abertura", PVal.num 3)] := by
  refine ⟨traits_text_arrival_radar_canonical.1 _ "Neuroticismo" (by decide) (by decide), ?_, ?_⟩
  · have h := traits_text_arrival_radar_canonical.2.1 []
    rw [h]; decide
  · exact traits_text_arrival_radar_canonical.2.2 _ "Abertura" (PVal.num 3) (by simp) (by simp)

/-! ### C10 — the competency chart keeps the 15 highest scores -/

/-- The sort order of `sort_values("nota", ascending=True)`:
scores ascending, score-less rows (`NaN`) last. -/
def leK (a b : Comp) : Prop := notaKey a ≤ notaKey b

lemma mem_insertAsc (r : Comp) : ∀ l a, a ∈ insertAsc r l ↔ a = r ∨ a ∈ l := by
  intro l
  induction l with
  | nil => intro a; simp [insertAsc]
  | cons x xs ih =>
    intro a
    unfold insertAsc
    by_cases h : notaKey r ≤ notaKey x
    · simp [if_pos h]
    · simp only [if_neg h, List.mem_cons, ih a]
      tauto

lemma mem_sortAsc (l : List Comp) (a : Comp) : a ∈ sortAsc l → a ∈ l := by
  induction l with
  | nil => intro h; simp [sortAsc] at h
  | cons x xs ih =>
    intro h
    have : a ∈ insertAsc x (sortAsc xs) := h
    rcases (mem_insertAsc x (sortAsc xs) a).mp this with h1 | h1
    · simp [h1]
    · exact List.mem_cons_of_mem _ (ih h1)

lemma length_insertAsc (r : Comp) : ∀ l, (insertAsc r l).length = l.length + 1 := by
  intro l
  induction l with
  | nil => rfl
  | cons x xs ih =>
    unfold insertAsc
    by_cases h : notaKey r ≤ notaKey x
    · simp [if_pos h]
    · simp [if_neg h, ih]

lemma length_sortAsc (l : List Comp) : (sortAsc l).length = l.length := by
  induction l with
  | nil => rfl
  | cons x xs ih =>
    show (insertAsc x (sortAsc xs)).length = xs.length + 1
    rw [length_insertAsc, ih]

lemma pairwise_insertAsc (r : Comp) :
    ∀ l, l.Pairwise leK → (insertAsc r l).Pairwise leK := by
  intro l
  induction l with
  | nil => intro _; simp [insertAsc, List.Pairwise]
  | cons x xs ih =>
    intro h
    rcases List.pairwise_cons.mp h with ⟨hx, hxs⟩
    unfold insertAsc
    by_cases hk : notaKey r ≤ notaKey x
    · rw [if_pos hk]
      refine List.pairwise_cons.mpr ⟨?_, h⟩
      intro b hb
      rcases List.mem_cons.mp hb with rfl | hb
      · exact hk
      · exact le_trans hk (hx b hb)
    · rw [if_neg hk]
      refine List.pairwise_cons.mpr ⟨?_, ih hxs⟩
      intro b hb
      rcases (mem_insertAsc r xs b).mp hb with rfl | hb
      · exact le_of_not_le hk
      · exact hx b hb

lemma pairwise_sortAsc (l : List Comp) : (sortAsc l).Pairwise leK := by
  induction l with
  | nil => simp [sortAsc]
  | cons x xs ih => exact pairwise_insertAsc x (sortAsc xs) ih

/-- C10 (counterexample) — On a two-record list where one record lacks
the `nota` field and the other has it, `criar_grafico_competencias`
neither returns `None` nor charts the highest scores: it raises
(`df["nota"].round(0).astype(int)` cannot cast the `NaN`), modelled by
`.error ()`.  The guards of the claim do not apply: the list is
non-empty and the `nota` column exists. -/
theorem comp_chart_mixed_nota_raises :
    compGrafico [⟨some "A", Option.none⟩, ⟨some "B", some 50⟩] = Except.error () ∧
    [Comp.mk (some "A") Option.none, Comp.mk (some "B") (some 50)] ≠ [] ∧
    ¬(∀ r ∈ [Comp.mk (some "A") Option.none, Comp.mk (some "B") (some 50)],
        r.nota = Option.none) := by
  refine ⟨by decide, by decide, ?_⟩
  intro h
  exact absurd (h ⟨some "B", some 50⟩ (by decide)) (by decide)

/-- C10 (amended) — `criar_grafico_competencias` returns `None` when
the list is empty or when no record carries a `nota` field; it raises
when the scores are only partially present (see the counterexample);
and when every record has a score (and at least one a name), it charts
exactly the `min(n, 15)` rows that survive `tail(15)` of the ascending
sort: every omitted row's score is at most every charted row's score. -/
theorem comp_chart_top15 :
    (∀ comps : List Comp, comps = [] → compGrafico comps = Except.ok Option.none) ∧
    (∀ comps : List Comp, comps ≠ [] → (∀ r ∈ comps, r.nota = Option.none) →
      compGrafico comps = Except.ok Option.none) ∧
    (∀ comps : List Comp, comps ≠ [] → (∀ r ∈ comps, r.nota.isSome) →
      (∃ r ∈ comps, r.nome.isSome) →
      ∃ ch, compGrafico comps = Except.ok (some ch) ∧
        ch.rows.length = min comps.length 15 ∧
        (∀ a ∈ (sortAsc comps).take ((sortAsc comps).length - 15),
         ∀ b ∈ (sortAsc comps).drop ((sortAsc comps).length - 15),
          notaKey a ≤ notaKey b) ∧
        (∀ r ∈ (sortAsc comps).drop ((sortAsc comps).length - 15), r ∈ comps) ∧
        ch.rows = ((sortAsc comps).drop ((sortAsc comps).length - 15)).map
          (fun r => (r.nome, r.nota.getD 0))) := by
  refine ⟨?_, ?_, ?_⟩
  · intro comps h; subst h; rfl
  · intro comps hne hall
    unfold compGrafico
    rw [if_neg (by simpa using hne), if_pos]
    rw [List.all_eq_true]
    intro r hr
    simp [hall r hr]
  · intro comps hne hsome ⟨rn, hrn, hrnome⟩
    have hne' : comps.isEmpty = false := by simpa using hne
    have hnotall : comps.all (fun r => r.nota.isNone) = false := by
      rcases List.exists_mem_of_ne_nil comps hne with ⟨r0, hr0⟩
      refine List.all_eq_false.mpr ⟨r0, hr0, ?_⟩
      have := hsome r0 hr0
      simp [Option.isNone_iff_eq_none]
      exact Option.isSome_iff_ne_none.mp this
    have hnomeall : comps.all (fun r => r.nome.isNone) = false := by
      refine List.all_eq_false.mpr ⟨rn, hrn, ?_⟩
      simp [Option.isNone_iff_eq_none]
      exact Option.isSome_iff_ne_none.mp hrnome
    have htopnone :
        ((sortAsc comps).drop ((sortAsc comps).length - 15)).any
          (fun r => r.nota.isNone) = false := by
      rw [List.any_eq_false]
      intro r hr
      have hmem : r ∈ comps := mem_sortAsc comps r (List.mem_of_mem_drop hr)
      have := hsome r hmem
      simp [Option.isNone_iff_eq_none]
      exact Option.isSome_iff_ne_none.mp this
    refine ⟨⟨((sortAsc comps).drop ((sortAsc comps).length - 15)).map
        (fun r => (r.nome, r.nota.getD 0)),
      ((sortAsc comps).drop ((sortAsc comps).length - 15)).map
        (fun r => corNota r.nota)⟩, ?_, ?_, ?_, ?_, rfl⟩
    · unfold compGrafico
      rw [if_neg (by simp [hne']), if_neg (by simp [hnotall]),
        if_neg (by simp [hnomeall]), if_neg (by simp [htopnone])]
    · simp only [List.length_map, List.length_drop, length_sortAsc]
      omega
    · intro a ha b hb
      have hp := pairwise_sortAsc comps
      rw [← List.take_append_drop ((sortAsc comps).length - 15) (sortAsc comps)] at hp
      exact (List.pairwise_append.mp hp).2.2 a ha b hb
    · intro r hr
      exact mem_sortAsc comps r (List.mem_of_mem_drop hr)

/-- Witness for C10 (amended) at a concrete 16-record list: exactly the
15 highest scores are charted and the lowest row is omitted. -/
theorem comp_chart_top15_witness :
    compGrafico [] = Except.ok Option.none ∧
    compGrafico [⟨some "X", Option.none⟩] = Except.ok Option.none ∧
    ∃ ch, compGrafico
        ((List.range 16).map (fun i => Comp.mk (some "C") (some (i : ℚ)))) =
        Except.ok (some ch) ∧
      ch.rows.length = min 16 15 := by
  refine ⟨comp_chart_top15.1 [] rfl, comp_chart_top15.2.1 [⟨some "X", Option.none⟩]
    (by decide) (by decide), ?_⟩
  rcases comp_chart_top15.2.2 ((List.range 16).map (fun i => Comp.mk (some "C") (some (i : ℚ))))
    (by decide) (by intro r hr; rcases List.mem_map.mp hr with ⟨i, _, rfl⟩; rfl)
    ⟨⟨some "C", some 0⟩, by
      refine List.mem_map.mpr ⟨0, by decide, ?_⟩
      norm_num, rfl⟩ with ⟨ch, h1, h2, _⟩
  exact ⟨ch, h1, by simpa using h2⟩

/-! ### C6 — pre-emptive page breaks for atomic blocks -/

/-- Modelled from the spec: the Page Flow Manager of §4.2
(`write_line`/`ensure_space`/`new_page`) is realized by the vendored
FPDF engine, which is not under `src/`; `PDFReport.__init__` only
configures it (`A4` portrait in millimetres, `set_margins(20, 20, 20)`,
`set_auto_page_break(auto=True, margin=15)`).  The cursor tracks the
current page and vertical write position. -/
structure Cursor where
  page : ℕ
  y : ℚ
deriving DecidableEq

/-- A4 portrait height in millimetres. -/
def pageHeightA4 : ℚ := 297

/-- `set_margins(20, 20, 20)`: the top margin a new page resets to. -/
def contentTopMargin : ℚ := 20

/-- `set_auto_page_break(auto=True, margin=15)`: the bottom
reservation. -/
def autoBreakMargin : ℚ := 15

/-- The page-break trigger: drawing may not extend below this line. -/
def pageBreakTrigger : ℚ := pageHeightA4 - autoBreakMargin

/-- Modelled from the spec: `new_page()` resets the cursor to the top
margin of the next page. -/
def newPage (cu : Cursor) : Cursor := ⟨cu.page + 1, contentTopMargin⟩

/-- Modelled from the spec: `ensure_space(h)` — if a block of height
`h` drawn at the cursor would cross the bottom reservation, start a new
page first. -/
def ensureSpace (h : ℚ) (cu : Cursor) : Cursor :=
  if pageBreakTrigger < cu.y + h then newPage cu else cu

/-- The vertical extent actually occupied by an atomic block. -/
structure Block where
  page : ℕ
  top : ℚ
  bottom : ℚ
deriving DecidableEq

/-- Modelled from the spec: drawing an atomic block of height `h`
(a card or an embedded chart image): ensure space, draw at the cursor,
advance the cursor by `h`. -/
def drawBlock (h : ℚ) (cu : Cursor) : Cursor × Block :=
  let c := ensureSpace h cu
  (⟨c.page, c.y + h⟩, ⟨c.page, c.y, c.y + h⟩)

/-- C6 — For every cursor position inside the content area and every
block that fits on an empty page: if the block's height exceeds the
remaining space, a new page is started before drawing (the block lands
at the top margin of the next page); and in every case the drawn
block's vertical extent lies between the top margin and the page-break
trigger of a single page — it never spans two pages. -/
theorem block_never_spans_pages (h : ℚ) (cu : Cursor)
    (hy1 : contentTopMargin ≤ cu.y) (hy2 : cu.y ≤ pageBreakTrigger)
    (hh1 : 0 < h) (hh2 : h ≤ pageBreakTrigger - contentTopMargin) :
    (pageBreakTrigger < cu.y + h →
      (drawBlock h cu).2.page = cu.page + 1 ∧ (drawBlock h cu).2.top = contentTopMargin) ∧
    (¬pageBreakTrigger < cu.y + h →
      (drawBlock h cu).2.page = cu.page ∧ (drawBlock h cu).2.top = cu.y) ∧
    contentTopMargin ≤ (drawBlock h cu).2.top ∧
    (drawBlock h cu).2.bottom = (drawBlock h cu).2.top + h ∧
    (drawBlock h cu).2.bottom ≤ pageBreakTrigger := by
  unfold drawBlock ensureSpace newPage
  by_cases hb : pageBreakTrigger < cu.y + h
  · rw [if_pos hb]
    refine ⟨fun _ => ⟨rfl, rfl⟩, fun hn => absurd hb hn, le_refl _, rfl, by
      dsimp only
      linarith⟩
  · rw [if_neg hb]
    refine ⟨fun hx => absurd hx hb, fun _ => ⟨rfl, rfl⟩, hy1, rfl, by
      dsimp only
      linarith [not_lt.mp hb]⟩

/-- Witness for C6: a 100 mm chart image at cursor height 250 mm of an
A4 page forces a page break and lands entirely on the next page. -/
theorem block_never_spans_pages_witness :
    (pageBreakTrigger < (250 : ℚ) + 100 →
      (drawBlock 100 ⟨1, 250⟩).2.page = 2 ∧ (drawBlock 100 ⟨1, 250⟩).2.top = contentTopMargin) ∧
    (drawBlock 100 ⟨1, 250⟩).2.bottom ≤ pageBreakTrigger := by
  have h := block_never_spans_pages 100 ⟨1, 250⟩
    (by norm_num [contentTopMargin])
    (by norm_num [pageBreakTrigger, pageHeightA4, autoBreakMargin])
    (by norm_num)
    (by norm_num [pageBreakTrigger, pageHeightA4, autoBreakMargin, contentTopMargin])
  exact ⟨h.1, h.2.2.2.2⟩

/-! ### C8 — determinism and the wall clock -/

/-- C8 (counterexample) — Composing the same payload in the same
environment at two different clock readings yields different buffers:
the cover date line and the "Data da Análise" line embed
`datetime.now()`, which is not part of the payload. -/
theorem compose_differs_across_clock :
    gerar ⟨some "Eva", [], [], [], [], [], [], some "RECOMENDADO", PVal.num 82,
        "", Option.none, "", [], []⟩ "Analista" Option.none
      ⟨fun _ => Except.error (), fun _ => true, fun _ => true, true, true, true, true, true⟩
      ⟨1, 1, 2025, 10, 0⟩ ≠
    gerar ⟨some "Eva", [], [], [], [], [], [], some "RECOMENDADO", PVal.num 82,
        "", Option.none, "", [], []⟩ "Analista" Option.none
      ⟨fun _ => Except.error (), fun _ => true, fun _ => true, true, true, true, true, true⟩
      ⟨2, 1, 2025, 10, 0⟩ := by
  decide

/-- C8 (amended) — The composer is a pure function of the payload, the
environment oracles (chart rasterization stubbed deterministic, fonts,
serialization) and the formatted clock strings: two runs over the same
payload and environment whose clock readings format identically produce
byte-identical buffers.  The clock enters only through `%d/%m/%Y` and
`%d/%m/%Y %H:%M`. -/
theorem compose_deterministic_given_clock (p : Payload) (cargo : String)
    (lp : Option String) (env : Env) (c1 c2 : Clock)
    (h1 : fmtDate c1 = fmtDate c2) (h2 : fmtDateTime c1 = fmtDateTime c2) :
    gerar p cargo lp env c1 = gerar p cargo lp env c2 := by
  unfold gerar deluxeBody fallbackBody deluxeItemsList coverItems sec1Items miniItems fallbackItems
  simp only [h1, h2]

/-- Witness for C8 (amended) at a concrete payload and identical clock
readings. -/
theorem compose_deterministic_given_clock_witness :
    gerar ⟨some "Eva", [], [], [], [], [], [], some "RECOMENDADO", PVal.num 82,
        "", Option.none, "", [], []⟩ "Analista" Option.none
      ⟨fun _ => Except.error (), fun _ => true, fun _ => true, true, true, true, true, true⟩
      ⟨1, 1, 2025, 10, 0⟩ =
    gerar ⟨some "Eva", [], [], [], [], [], [], some "RECOMENDADO", PVal.num 82,
        "", Option.none, "", [], []⟩ "Analista" Option.none
      ⟨fun _ => Except.error (), fun _ => true, fun _ => true, true, true, true, true, true⟩
      ⟨1, 1, 2025, 10, 0⟩ := by
  exact compose_deterministic_given_clock _ "Analista" Option.none _ _ _ rfl rfl
